import Mathlib

/- Shallow embedding of src/ScalpEngine.js (sell-only pullback scalp engine).

   Modelling conventions:
   * JS numbers are exact rationals (ℚ).  Timestamps (epoch milliseconds) are Int.
   * `undefined` values produced by out-of-range array indexing are `Option ℚ`
     (or `Option` of the entry type); JS comparisons involving undefined
     evaluate to false, which the j-prefixed comparison helpers reproduce.
   * The external `technicalindicators` library is an explicit parameter
     (`IndicatorLib`); each indicator returns its output list or raises,
     modelled as `Except Unit`, matching the try/catch blocks in the source.
   * String reasons carried by HOLD results are modelled as a structured
     `HoldReason` holding the same data that is interpolated into the string
     (hour, remaining cooldown minutes, the open trade).  Likewise the
     rationale strings pushed by `_buildReasons` become `Reason` tags.
   * `getStats` in the source formats winRate/profitFactor with `toFixed`;
     the numeric values are modelled exactly and the string `'∞'` sentinel
     becomes the constructor `ProfitFactor.infinite`.  Display rounding is
     the only abstraction.
   * `_recordResult` dereferences `stats.bySymbol[symbol]` without a guard;
     when that entry is missing the JS code throws a TypeError after the
     global counters were already mutated.  This is modelled by the `Bool`
     "crashed" flag: the state carries exactly the mutations committed
     before the throw, and no outcome value is returned. -/

/- Rational arithmetic must evaluate inside `decide`/`rfl` proofs over the
concrete engine runs below, so the Batteries rational operations are
restored to their definitional transparency. -/
attribute [local semireducible] Rat.add Rat.sub Rat.mul Rat.inv

namespace Scalp

/-- JS array indexing `l[i]`: a negative or out-of-range index yields
undefined, modelled as `none`. -/
def jidx {α : Type} (l : List α) (i : Int) : Option α :=
  if i < 0 then none else l[i.toNat]?

/-- JS `a < b` where either side may be undefined (the comparison is then
false, as with NaN). -/
def jlt : Option ℚ → Option ℚ → Bool
  | some a, some b => a < b
  | _, _ => false

/-- JS `a <= b` with undefined operands comparing false. -/
def jle : Option ℚ → Option ℚ → Bool
  | some a, some b => a ≤ b
  | _, _ => false

/-- JS `a > b` with undefined operands comparing false. -/
def jgt : Option ℚ → Option ℚ → Bool
  | some a, some b => b < a
  | _, _ => false

/-- JS `a >= b` with undefined operands comparing false. -/
def jge : Option ℚ → Option ℚ → Bool
  | some a, some b => b ≤ a
  | _, _ => false

/-- JS `Math.abs`. -/
def qabs (x : ℚ) : ℚ := if x < 0 then -x else x

/-- JS `Math.min`. -/
def qmin (a b : ℚ) : ℚ := if a ≤ b then a else b

/-- JS `Math.max` of two numbers. -/
def qmax (a b : ℚ) : ℚ := if a ≤ b then b else a

/-- JS `Math.max(...list)`; the empty list gives -Infinity, modelled as
`none`. -/
def listMax (l : List ℚ) : Option ℚ :=
  l.foldl (fun acc x => match acc with
    | none => some x
    | some a => some (qmax a x)) none

/-- JS `Math.ceil` on an exact rational. -/
def jceil (q : ℚ) : Int :=
  if q.den = 1 then q.num else q.num.fdiv q.den + 1

/-- JS `arr.slice(-n)`: the last `n` elements (the whole array when shorter). -/
def lastN {α : Type} (n : Nat) (l : List α) : List α := l.drop (l.length - n)

/-- Pointwise update of a string-keyed JS object. -/
def supd {α : Type} (f : String → α) (k : String) (v : α) : String → α :=
  fun x => if x = k then v else f x

/-- JS `Date.prototype.getUTCHours` of an epoch-milliseconds timestamp. -/
def utcHours (ts : Int) : Int := (ts.fdiv 3600000).emod 24

/-- JS `Date.prototype.getUTCDay` (0 = Sunday) of an epoch-milliseconds
timestamp; Jan 1 1970 was a Thursday (= 4). -/
def utcDay (ts : Int) : Int := ((ts.fdiv 86400000) + 4).emod 7

/-- One OHLC bar.  The source feed sets both long (`close`) and short (`c`)
field names to the same value; the engine reads them via `c.close || c.c`,
so a single field per component suffices.  The bar's own timestamp is never
read by the engine. -/
structure Candle where
  ts : Int
  opn : ℚ
  high : ℚ
  low : ℚ
  close : ℚ
deriving DecidableEq, Repr

/-- One element of `Stochastic.calculate`'s output (`%K`/`%D`); either
component may be undefined during warm-up. -/
structure StochEntry where
  k : Option ℚ
  d : Option ℚ
deriving DecidableEq, Repr

/-- One element of `MACD.calculate`'s output; only `histogram` is read. -/
structure MacdEntry where
  histogram : Option ℚ
deriving DecidableEq, Repr

/-- One element of `ADX.calculate`'s output; only `adx` is read. -/
structure AdxEntry where
  adx : Option ℚ
deriving DecidableEq, Repr

/-- The external `technicalindicators` library, out of scope per the spec:
pure functions from price series and periods to aligned output series.  A
thrown computation error is `.error ()`. -/
structure IndicatorLib where
  ema : List ℚ → Nat → Except Unit (List ℚ)
  rsi : List ℚ → Nat → Except Unit (List ℚ)
  atr : List ℚ → List ℚ → List ℚ → Nat → Except Unit (List ℚ)
  stoch : List ℚ → List ℚ → List ℚ → Nat → Nat → Except Unit (List StochEntry)
  adx : List ℚ → List ℚ → List ℚ → Nat → Except Unit (List AdxEntry)
  macd : List ℚ → Nat → Nat → Nat → Except Unit (List MacdEntry)

/-- Trend labels `'BULLISH' | 'BEARISH' | 'NEUTRAL'`. -/
inductive Trend
  | bullish
  | bearish
  | neutral
deriving DecidableEq, Repr

/-- The rationale strings pushed by `_buildReasons`, as tags (the RSI value
interpolated into the second string is display formatting). -/
inductive Reason
  | perfectTap
  | cleanPullback
  | rsiOverbought
  | freshStochCross
  | macdAccel
deriving DecidableEq, Repr

/-- The engine configuration object `SCALP_CONFIG`. -/
structure ScalpConfig where
  RR : ℚ
  ATR_MUL : ℚ
  MAX_PB_ATR : ℚ
  MIN_CONF : ℚ
  MAX_HOLD : ℚ
  COOLDOWN : ℚ
  HOUR_START : Int
  HOUR_END : Int
deriving DecidableEq, Repr

/-- `SCALP_CONFIG` literal from the source: RR 1.8, ATR_MUL 1.0,
MAX_PB_ATR 0.4, MIN_CONF 65, MAX_HOLD 20, COOLDOWN 5, session 12–13 UTC.
The constructor stores it in `this.config` and nothing in the repository
ever reassigns it, so functions below reference it directly. -/
def SCALP_CONFIG : ScalpConfig :=
  { RR := 9/5, ATR_MUL := 1, MAX_PB_ATR := 2/5, MIN_CONF := 65,
    MAX_HOLD := 20, COOLDOWN := 5, HOUR_START := 12, HOUR_END := 13 }

/-- The object returned by `getSellSignal` (its constant `action: 'SELL'`
field is implicit). -/
structure Setup where
  confidence : ℚ
  price : ℚ
  sl : ℚ
  tp : ℚ
  risk : ℚ
  atr : ℚ
  pullbackHigh : ℚ
  ema21 : ℚ
  rsi : ℚ
  stochK : Option ℚ
  macdHist : Option ℚ
  reasons : List Reason
deriving DecidableEq, Repr

/-- The trade object stored in `this.openTrade[symbol]` by `generateSignal`
step 7. -/
structure Trade where
  symbol : String
  action : String
  entryPrice : ℚ
  sl : ℚ
  tp : ℚ
  risk : ℚ
  rr : ℚ
  confidence : ℚ
  atr : ℚ
  openTime : Int
  reasons : List Reason
  lotSize : Option ℚ
deriving DecidableEq, Repr

/-- Outcome labels `'WIN' | 'LOSS' | 'EXPIRED'`. -/
inductive TradeResultKind
  | win
  | loss
  | expired
deriving DecidableEq, Repr

/-- The resolved-trade object `{ ...trade, result, rPnL, closePrice }`. -/
structure TradeOutcome where
  trade : Trade
  result : TradeResultKind
  rPnL : ℚ
  closePrice : ℚ
deriving DecidableEq, Repr

/-- Per-symbol entry of `stats.bySymbol` — note it has `wins`, `losses` and
`totalR` only; there is no per-symbol `expired` counter in the source. -/
structure SymStats where
  wins : Nat
  losses : Nat
  totalR : ℚ
deriving DecidableEq, Repr

/-- `this.stats`. -/
structure Stats where
  wins : Nat
  losses : Nat
  expired : Nat
  totalR : ℚ
  bySymbol : String → Option SymStats

/-- The engine's per-symbol mutable state.  Missing JS object keys are `[]`
for candle buffers (push creates the array on demand, and every read
guards with `!buf || buf.length < n`), `none` for `openTrade` and
`lastSignalTs` (the cooldown check reads the latter through `|| 0`). -/
structure EngineState where
  candles1m : String → List Candle
  candles5m : String → List Candle
  candles1h : String → List Candle
  openTrade : String → Option Trade
  lastSignalTs : String → Option Int
  stats : Stats

/-- `load1mCandles`: keeps the last 100 bars, clears the symbol's open
trade slot, zeroes its last-signal timestamp, and creates the per-symbol
stats entry when absent. -/
def load1mCandles (s : EngineState) (symbol : String) (candles : List Candle) :
    EngineState :=
  { s with
    candles1m := supd s.candles1m symbol (lastN 100 candles),
    openTrade := supd s.openTrade symbol none,
    lastSignalTs := supd s.lastSignalTs symbol (some 0),
    stats := { s.stats with bySymbol :=
      match s.stats.bySymbol symbol with
      | none => supd s.stats.bySymbol symbol (some { wins := 0, losses := 0, totalR := 0 })
      | some _ => s.stats.bySymbol } }

/-- `load5mCandles`: keeps the last 80 bars. -/
def load5mCandles (s : EngineState) (symbol : String) (candles : List Candle) :
    EngineState :=
  { s with candles5m := supd s.candles5m symbol (lastN 80 candles) }

/-- `load1hCandles`: keeps the last 100 bars. -/
def load1hCandles (s : EngineState) (symbol : String) (candles : List Candle) :
    EngineState :=
  { s with candles1h := supd s.candles1h symbol (lastN 100 candles) }

/-- `push1mCandle`: append, then shift once when over 100 bars. -/
def push1mCandle (s : EngineState) (symbol : String) (candle : Candle) :
    EngineState :=
  let l := s.candles1m symbol ++ [candle]
  let l := if 100 < l.length then l.drop 1 else l
  { s with candles1m := supd s.candles1m symbol l }

/-- `push5mCandle`: append, then shift once when over 80 bars. -/
def push5mCandle (s : EngineState) (symbol : String) (candle : Candle) :
    EngineState :=
  let l := s.candles5m symbol ++ [candle]
  let l := if 80 < l.length then l.drop 1 else l
  { s with candles5m := supd s.candles5m symbol l }

/-- `isScalpSession`: weekday session gate, 12:00–13:00 UTC with the Monday
and Friday edge exclusions from the source. -/
def isScalpSession (ts : Int) : Bool :=
  if utcDay ts = 0 ∨ utcDay ts = 6 then false
  else if utcDay ts = 1 ∧ utcHours ts < 10 then false
  else if utcDay ts = 5 ∧ SCALP_CONFIG.HOUR_END ≤ utcHours ts then false
  else SCALP_CONFIG.HOUR_START ≤ utcHours ts ∧ utcHours ts < SCALP_CONFIG.HOUR_END

/-- `get1hMacro`: 1h macro trend filter.  Fewer than 55 bars, an empty
indicator output, or a thrown indicator error all yield NEUTRAL. -/
def get1hMacro (lib : IndicatorLib) (s : EngineState) (symbol : String) : Trend :=
  let c1h := s.candles1h symbol
  if c1h.length < 55 then .neutral else
  let closes := c1h.map (·.close)
  let highs := c1h.map (·.high)
  let lows := c1h.map (·.low)
  match lib.ema closes 21, lib.ema closes 50, lib.adx highs lows closes 14 with
  | .ok ema21, .ok ema50, .ok adx =>
    if ema21.length = 0 ∨ ema50.length = 0 ∨ adx.length = 0 then .neutral else
    match jidx ema21 ((ema21.length : Int) - 1), jidx ema50 ((ema50.length : Int) - 1),
          jidx closes ((closes.length : Int) - 1), jidx adx ((adx.length : Int) - 1) with
    | some e21, some e50, some price, some adxLast =>
      if jlt adxLast.adx (some 20) then .neutral
      else if e50 < e21 ∧ e21 < price then .bullish
      else if e21 < e50 ∧ price < e21 then .bearish
      else .neutral
    | _, _, _, _ => .neutral
  | _, _, _ => .neutral

/-- `get5mTrend`: 5m trend filter, BEARISH only on the full descending EMA
stack with ADX ≥ 25; anything else, including indicator errors, is NEUTRAL. -/
def get5mTrend (lib : IndicatorLib) (s : EngineState) (symbol : String) : Trend :=
  let c5 := s.candles5m symbol
  if c5.length < 55 then .neutral else
  let closes := c5.map (·.close)
  let highs := c5.map (·.high)
  let lows := c5.map (·.low)
  match lib.ema closes 9, lib.ema closes 21, lib.ema closes 50,
        lib.adx highs lows closes 14 with
  | .ok ema9, .ok ema21, .ok ema50, .ok adx =>
    if ema9.length = 0 ∨ ema21.length = 0 ∨ ema50.length = 0 ∨ adx.length = 0 then
      .neutral
    else
    match jidx ema9 ((ema9.length : Int) - 1), jidx ema21 ((ema21.length : Int) - 1),
          jidx ema50 ((ema50.length : Int) - 1), jidx closes ((closes.length : Int) - 1),
          jidx adx ((adx.length : Int) - 1) with
    | some e9, some e21, some e50, some p, some adxLast =>
      if e9 < e21 ∧ e21 < e50 ∧ p < e9 ∧ jge adxLast.adx (some 25) then .bearish
      else .neutral
    | _, _, _, _, _ => .neutral
  | _, _, _, _ => .neutral

/-- Histogram of a possibly-undefined MACD entry. -/
def jhist : Option MacdEntry → Option ℚ
  | some m => m.histogram
  | none => none

/-- `_buildReasons`: which confidence bonuses fired, as tags (the `conf`
parameter is accepted but unused, as in the source). -/
def _buildReasons (_conf dist atr rsi : ℚ) (stoch stochPrev : StochEntry)
    (macd : MacdEntry) (macdPrev : Option MacdEntry) : List Reason :=
  (if dist < atr * (3/20) then [Reason.perfectTap]
   else if dist < atr * (3/10) then [Reason.cleanPullback] else []) ++
  (if 60 < rsi then [Reason.rsiOverbought] else []) ++
  (if jlt stoch.k stoch.d ∧ jge stochPrev.k stochPrev.d then [Reason.freshStochCross]
   else []) ++
  (if jlt macd.histogram (some 0) ∧ macdPrev.isSome ∧ jlt macd.histogram (jhist macdPrev)
   then [Reason.macdAccel] else [])

/-- Confidence scoring block of `getSellSignal`: starts at 50, adds the
pullback-proximity, RSI, stochastic, MACD and EMA-slope bonuses in source
order, capped at 95 (`Math.min(conf, 95)`). -/
def scoreConfidence (distToEMA atrVal rsiVal : ℚ) (rsiPrev : Option ℚ)
    (sc sp : StochEntry) (mc : MacdEntry) (macdPrev : Option MacdEntry)
    (e21 : ℚ) (e21Prev : Option ℚ) (e8 e8Prev : Option ℚ) : ℚ :=
  qmin (50 +
    (if distToEMA < atrVal * (3/20) then 20
     else if distToEMA < atrVal * (3/10) then 12
     else if distToEMA < atrVal * (2/5) then 5 else 0) +
    (if 60 < rsiVal ∧ jlt (some rsiVal) rsiPrev then 12
     else if 50 < rsiVal then 6 else 0) +
    (if jlt sc.k sc.d ∧ jge sp.k sp.d then 12
     else if jlt sc.k sc.d then 5 else 0) +
    (if jgt sc.k (some 65) ∧ jlt sc.k sc.d then 5 else 0) +
    (if jlt mc.histogram (some 0) then 8 else 0) +
    (if jlt mc.histogram (some 0) ∧ macdPrev.isSome ∧ jlt mc.histogram (jhist macdPrev)
     then 6 else 0) +
    (if jlt (some e21) e21Prev then 5 else 0) +
    (if jlt e8 e8Prev then 4 else 0)) 95

/-- Gate chain, confidence scoring and SL/TP arithmetic of `getSellSignal`,
over the 1-minute candles and the six computed indicator series.  The
source's intermediate `const` bindings (`price`, `e8`, `distToEMA`, `conf`,
`sl`, `risk`, `tp`, ...) are pure, so each is inlined at its use sites. -/
def sellSetupFrom (c1 : List Candle) (ema8 ema21 rsi atr : List ℚ)
    (stoch : List StochEntry) (macd : List MacdEntry) : Option Setup :=
  if ema21.length = 0 ∨ rsi.length = 0 ∨ atr.length = 0 then none else
  match jidx (c1.map (·.close)) ((c1.length : Int) - 1),
        jidx (c1.map (·.close)) ((c1.length : Int) - 2),
        jidx ema21 ((ema21.length : Int) - 1), jidx rsi ((rsi.length : Int) - 1),
        jidx atr ((atr.length : Int) - 1),
        listMax (((c1.drop (c1.length - 8)).dropLast).map (·.high)) with
  | some price, some prevPrice, some e21, some rsiVal, some atrVal, some pullbackHigh =>
    if atrVal = 0 ∨ atrVal < 3/10 then none else
    if atrVal * SCALP_CONFIG.MAX_PB_ATR < qabs (pullbackHigh - e21) then none else
    if e21 + atrVal * 1 < pullbackHigh then none else
    if jge (some price) (jidx ema8 ((ema8.length : Int) - 1)) then none else
    if prevPrice ≤ price then none else
    if rsiVal < 35 then none else
    if jge (some rsiVal) (jidx rsi ((rsi.length : Int) - 2)) then none else
    if jge (some e21) (jidx ema21 ((ema21.length : Int) - 2)) then none else
    if jge (jidx ema8 ((ema8.length : Int) - 1)) (jidx ema8 ((ema8.length : Int) - 2)) then none else
    match jidx stoch ((stoch.length : Int) - 1), jidx stoch ((stoch.length : Int) - 2) with
    | some sc, some sp =>
      if jlt sc.k (some 25) then none else
      if jge sc.k sc.d ∧ jge sp.k sp.d then none else
      match jidx macd ((macd.length : Int) - 1) with
      | none => none
      | some mc =>
        if jgt mc.histogram (some 0) ∧
           ((jidx macd ((macd.length : Int) - 2)).isNone ∨
            jge mc.histogram (jhist (jidx macd ((macd.length : Int) - 2)))) then none else
        if scoreConfidence (qabs (pullbackHigh - e21)) atrVal rsiVal
             (jidx rsi ((rsi.length : Int) - 2)) sc sp mc (jidx macd ((macd.length : Int) - 2))
             e21 (jidx ema21 ((ema21.length : Int) - 2))
             (jidx ema8 ((ema8.length : Int) - 1)) (jidx ema8 ((ema8.length : Int) - 2))
           < SCALP_CONFIG.MIN_CONF then none else
        if qabs (price - (price + atrVal * SCALP_CONFIG.ATR_MUL)) ≤ 0 ∨
           atrVal * 3 < qabs (price - (price + atrVal * SCALP_CONFIG.ATR_MUL)) then none else
        some { confidence := scoreConfidence (qabs (pullbackHigh - e21)) atrVal rsiVal
                 (jidx rsi ((rsi.length : Int) - 2)) sc sp mc (jidx macd ((macd.length : Int) - 2))
                 e21 (jidx ema21 ((ema21.length : Int) - 2))
                 (jidx ema8 ((ema8.length : Int) - 1)) (jidx ema8 ((ema8.length : Int) - 2)),
               price := price,
               sl := price + atrVal * SCALP_CONFIG.ATR_MUL,
               tp := price - qabs (price - (price + atrVal * SCALP_CONFIG.ATR_MUL)) * SCALP_CONFIG.RR,
               risk := qabs (price - (price + atrVal * SCALP_CONFIG.ATR_MUL)),
               atr := atrVal, pullbackHigh := pullbackHigh,
               ema21 := e21, rsi := rsiVal, stochK := sc.k, macdHist := mc.histogram,
               reasons := _buildReasons
                 (scoreConfidence (qabs (pullbackHigh - e21)) atrVal rsiVal
                   (jidx rsi ((rsi.length : Int) - 2)) sc sp mc (jidx macd ((macd.length : Int) - 2))
                   e21 (jidx ema21 ((ema21.length : Int) - 2))
                   (jidx ema8 ((ema8.length : Int) - 1)) (jidx ema8 ((ema8.length : Int) - 2)))
                 (qabs (pullbackHigh - e21)) atrVal rsiVal sc sp mc
                 (jidx macd ((macd.length : Int) - 2)) }
    | _, _ => none
  | _, _, _, _, _, _ => none

/-- `getSellSignal`: requires 30 1-minute bars, computes EMA(8), EMA(21),
RSI(7), ATR(7), Stochastic(5,3) and MACD(5,13,4) over the series, then
evaluates the gate chain of `sellSetupFrom`; any indicator error yields
`none` (the catch block). -/
def getSellSignal (lib : IndicatorLib) (s : EngineState) (symbol : String) :
    Option Setup :=
  if (s.candles1m symbol).length < 30 then none else
  match lib.ema ((s.candles1m symbol).map (·.close)) 8,
        lib.ema ((s.candles1m symbol).map (·.close)) 21,
        lib.rsi ((s.candles1m symbol).map (·.close)) 7,
        lib.atr ((s.candles1m symbol).map (·.high)) ((s.candles1m symbol).map (·.low))
          ((s.candles1m symbol).map (·.close)) 7,
        lib.stoch ((s.candles1m symbol).map (·.high)) ((s.candles1m symbol).map (·.low))
          ((s.candles1m symbol).map (·.close)) 5 3,
        lib.macd ((s.candles1m symbol).map (·.close)) 5 13 4 with
  | .ok ema8, .ok ema21, .ok rsi, .ok atr, .ok stoch, .ok macd =>
    sellSetupFrom (s.candles1m symbol) ema8 ema21 rsi atr stoch macd
  | _, _, _, _, _, _ => none

/-- `_recordResult`: updates global then per-symbol counters for WIN/LOSS;
EXPIRED touches the global counters only.  The returned flag is true when
the per-symbol dereference would have thrown (entry missing): the global
mutations before the throw are still committed. -/
def _recordResult (st : Stats) (symbol : String) (outcome : TradeResultKind)
    (rPnL : ℚ) : Stats × Bool :=
  match outcome with
  | .win =>
    let g := { st with wins := st.wins + 1, totalR := st.totalR + rPnL }
    match st.bySymbol symbol with
    | some ss =>
      let ss2 := { ss with wins := ss.wins + 1, totalR := ss.totalR + rPnL }
      ({ g with bySymbol := supd g.bySymbol symbol (some ss2) }, false)
    | none => (g, true)
  | .loss =>
    let g := { st with losses := st.losses + 1, totalR := st.totalR + rPnL }
    match st.bySymbol symbol with
    | some ss =>
      let ss2 := { ss with losses := ss.losses + 1, totalR := ss.totalR + rPnL }
      ({ g with bySymbol := supd g.bySymbol symbol (some ss2) }, false)
    | none => (g, true)
  | .expired =>
    ({ st with expired := st.expired + 1, totalR := st.totalR + rPnL }, false)

/-- Result of `resolveOpenTrade`: the successor state, the returned outcome
(`none` both for "still open" and when `_recordResult` threw), and whether
it threw. -/
structure ResolveOut where
  st : EngineState
  outcome : Option TradeOutcome
  crashed : Bool

/-- `resolveOpenTrade`: stop first, then target, then the wall-clock
max-hold timeout; the open slot is cleared before stats are recorded.
`now` is the `Date.now()` read in the age check. -/
def resolveOpenTrade (s : EngineState) (symbol : String) (newCandle : Candle)
    (now : Int) : ResolveOut :=
  match s.openTrade symbol with
  | none => { st := s, outcome := none, crashed := false }
  | some trade =>
    if trade.sl ≤ newCandle.high then
      let res : TradeOutcome :=
        { trade := trade, result := .loss, rPnL := -1, closePrice := trade.sl }
      let s1 := { s with openTrade := supd s.openTrade symbol none }
      let rec1 := _recordResult s1.stats symbol .loss (-1)
      { st := { s1 with stats := rec1.1 },
        outcome := if rec1.2 then none else some res, crashed := rec1.2 }
    else if newCandle.low ≤ trade.tp then
      let res : TradeOutcome :=
        { trade := trade, result := .win, rPnL := SCALP_CONFIG.RR, closePrice := trade.tp }
      let s1 := { s with openTrade := supd s.openTrade symbol none }
      let rec1 := _recordResult s1.stats symbol .win SCALP_CONFIG.RR
      { st := { s1 with stats := rec1.1 },
        outcome := if rec1.2 then none else some res, crashed := rec1.2 }
    else
      if SCALP_CONFIG.MAX_HOLD ≤ ((now - trade.openTime : Int) : ℚ) / 60000 then
        let res : TradeOutcome :=
          { trade := trade, result := .expired, rPnL := -(3/20),
            closePrice := newCandle.close }
        let s1 := { s with openTrade := supd s.openTrade symbol none }
        let rec1 := _recordResult s1.stats symbol .expired (-(3/20))
        { st := { s1 with stats := rec1.1 },
          outcome := if rec1.2 then none else some res, crashed := rec1.2 }
      else { st := s, outcome := none, crashed := false }

/-- The structured content of the HOLD reason strings built by
`generateSignal`. -/
inductive HoldReason
  | outsideSession (hour : Int)
  | cooldownActive (waitMin : Option Int)
  | openTradeHold (t : Trade)
  | macroBullish
  | trendNot (t5 : Trend)
  | noSetup
deriving DecidableEq, Repr

/-- The trade object literal built in step 7 of `generateSignal`: entry at
the caller-supplied current price, SL/TP/risk/ATR/confidence/rationale from
the setup, `rr` from the config, opened at the call's timestamp, `lotSize`
left null for the caller. -/
def mkTrade (symbol : String) (currentPrice : ℚ) (ts : Int) (sig : Setup) : Trade :=
  { symbol := symbol, action := "SELL", entryPrice := currentPrice,
    sl := sig.sl, tp := sig.tp, risk := sig.risk, rr := SCALP_CONFIG.RR,
    confidence := sig.confidence, atr := sig.atr, openTime := ts,
    reasons := sig.reasons, lotSize := none }

/-- The remaining cooldown wait `Math.ceil((cooldownMs - (ts - lastSignalTs[symbol])) / 60000)`
interpolated into the cooldown HOLD message; the raw (un-defaulted) map entry
is read here, so a missing entry gives NaN, modelled as `none`. -/
def cooldownWait (lastTs : Option Int) (ts : Int) : Option Int :=
  match lastTs with
  | some last =>
    some (jceil ((SCALP_CONFIG.COOLDOWN * 60000 - ((ts : ℚ) - (last : ℚ))) / 60000))
  | none => none

/-- The value returned by `generateSignal`. -/
inductive GenResult
  | hold (r : HoldReason)
  | sell (signal : Setup) (trade : Trade) (trend5m : Trend)
deriving DecidableEq, Repr

/-- Whether a `generateSignal` result is a SELL emission. -/
def GenResult.isSell : GenResult → Bool
  | .sell _ _ _ => true
  | .hold _ => false

/-- `generateSignal`: session gate, cooldown gate, open-trade guard, 1h
macro filter, 5m trend filter, 1m setup detector, then trade construction.
The cooldown check reads `lastSignalTs[symbol] || 0`; the remaining-wait
message reads the raw entry (so a missing entry would print NaN, modelled
as `none`).  The constructed trade's `entryPrice` is the caller-supplied
`currentPrice`, while `sl`/`tp` come from the setup (derived from the last
1-minute close). -/
def generateSignal (lib : IndicatorLib) (s : EngineState) (symbol : String)
    (currentPrice : ℚ) (ts : Int) : EngineState × GenResult :=
  if isScalpSession ts = true then
    if ((ts : ℚ) - (((s.lastSignalTs symbol).getD 0 : Int) : ℚ)) <
        SCALP_CONFIG.COOLDOWN * 60000 then
      (s, .hold (.cooldownActive (cooldownWait (s.lastSignalTs symbol) ts)))
    else
      match s.openTrade symbol with
      | some t => (s, .hold (.openTradeHold t))
      | none =>
        if get1hMacro lib s symbol = .bullish then (s, .hold .macroBullish) else
        if get5mTrend lib s symbol ≠ .bearish then
          (s, .hold (.trendNot (get5mTrend lib s symbol)))
        else
          match getSellSignal lib s symbol with
          | none => (s, .hold .noSetup)
          | some sig =>
            ({ s with openTrade := supd s.openTrade symbol (some (mkTrade symbol currentPrice ts sig)),
                      lastSignalTs := supd s.lastSignalTs symbol (some ts) },
             .sell sig (mkTrade symbol currentPrice ts sig) (get5mTrend lib s symbol))
  else (s, .hold (.outsideSession (utcHours ts)))

/-- The profitFactor field of `getStats`: the numeric value, or the `'∞'`
string sentinel used when no losses were recorded. -/
inductive ProfitFactor
  | val (q : ℚ)
  | infinite
deriving DecidableEq, Repr

/-- The object returned by `getStats` (`{ ...stats, winRate, profitFactor,
closed }`), with the numeric values before `toFixed` display rounding. -/
structure StatsReport where
  wins : Nat
  losses : Nat
  expired : Nat
  totalR : ℚ
  bySymbol : String → Option SymStats
  winRate : ℚ
  profitFactor : ProfitFactor
  closed : Nat

/-- `getStats`. -/
def getStats (s : EngineState) : StatsReport :=
  let closed := s.stats.wins + s.stats.losses
  let wr : ℚ := if 0 < closed then (s.stats.wins : ℚ) / (closed : ℚ) * 100 else 0
  let pf : ProfitFactor :=
    if 0 < s.stats.losses then
      .val ((s.stats.wins : ℚ) * SCALP_CONFIG.RR / (s.stats.losses : ℚ))
    else .infinite
  { wins := s.stats.wins, losses := s.stats.losses, expired := s.stats.expired,
    totalR := s.stats.totalR, bySymbol := s.stats.bySymbol,
    winRate := wr, profitFactor := pf, closed := closed }

/-- Shorthand candle constructor (timestamp and open are never read by the
engine's decision logic). -/
def mkC (h l c : ℚ) : Candle := { ts := 0, opn := c, high := h, low := l, close := c }

/-- Thirty 1-minute bars: flat at 100, then two falling closes 91, 90; every
bar's high is 93.8 so the 7-bar pullback high is 93.8. -/
def exC1m : List Candle :=
  List.replicate 28 (mkC (469/5) 80 100) ++ [mkC (469/5) 80 91, mkC (469/5) 80 90]

/-- Sixty 5-minute bars flat at 80. -/
def exC5m : List Candle := List.replicate 60 (mkC 80 80 80)

/-- A concrete indicator library (pure, per the spec's external-collaborator
contract) whose outputs drive the engine through every gate: EMA8 = [93,92],
EMA21 = [95,94], EMA9 = [90], EMA50 = [99], RSI = [50,45], ATR = [1],
stochastic [⟨50,40⟩,⟨45,50⟩] (fresh bearish cross), MACD histogram [-1,-2],
ADX = 30. -/
def exLib : IndicatorLib :=
  { ema := fun _ p =>
      .ok (if p = 8 then [93, 92]
           else if p = 21 then [95, 94]
           else if p = 9 then [90]
           else if p = 50 then [99] else []),
    rsi := fun _ _ => .ok [50, 45],
    atr := fun _ _ _ _ => .ok [1],
    stoch := fun _ _ _ _ _ =>
      .ok [{ k := some 50, d := some 40 }, { k := some 45, d := some 50 }],
    adx := fun _ _ _ _ => .ok [{ adx := some 30 }],
    macd := fun _ _ _ _ => .ok [{ histogram := some (-1) }, { histogram := some (-2) }] }

/-- Baseline engine state for symbol "X": candles loaded, no open trade, no
signal yet, zeroed stats with a per-symbol entry for "X". -/
def exState : EngineState :=
  { candles1m := fun s => if s = "X" then exC1m else [],
    candles5m := fun s => if s = "X" then exC5m else [],
    candles1h := fun _ => [],
    openTrade := fun _ => none,
    lastSignalTs := fun _ => none,
    stats := { wins := 0, losses := 0, expired := 0, totalR := 0,
               bySymbol := fun s => if s = "X" then some { wins := 0, losses := 0, totalR := 0 } else none } }

/-- Tuesday Jan 13 1970, 12:30:00 UTC in epoch milliseconds (day 2, hour 12). -/
def exTs : Int := 1081800000

/-- The setup `getSellSignal exLib exState "X"` produces: price 90, SL 91,
TP 88.2, risk 1 = ATR, pullback high 93.8 just below EMA21 = 94. -/
def exSetup : Setup :=
  { confidence := 95, price := 90, sl := 91, tp := 441/5, risk := 1, atr := 1,
    pullbackHigh := 469/5, ema21 := 94, rsi := 45, stochK := some 45,
    macdHist := some (-2),
    reasons := [Reason.cleanPullback, Reason.freshStochCross, Reason.macdAccel] }

/-- The trade `generateSignal` builds from `exSetup` at entry `cp`, time `ts`. -/
def exTrade (cp : ℚ) (ts : Int) : Trade :=
  { symbol := "X", action := "SELL", entryPrice := cp, sl := 91, tp := 441/5,
    risk := 1, rr := 9/5, confidence := 95, atr := 1, openTime := ts,
    reasons := [Reason.cleanPullback, Reason.freshStochCross, Reason.macdAccel],
    lotSize := none }

/-- `exState` with the trade opened at price 90, time `exTs` (the state
`generateSignal` reaches after emitting). -/
def exOpenState : EngineState :=
  { exState with
    openTrade := supd exState.openTrade "X" (some (exTrade 90 exTs)),
    lastSignalTs := supd exState.lastSignalTs "X" (some exTs) }

/-- A closed stats book with 2 wins and 3 losses, for exercising the
finite profit-factor branch. -/
def exLossyState : EngineState :=
  { exState with stats := { wins := 2, losses := 3, expired := 0, totalR := 0,
                            bySymbol := fun _ => none } }

/-- An interleaving step for one symbol: either a `generateSignal` call or a
`resolveOpenTrade` call (the two operations named by the single-open-trade
invariant). -/
inductive AgentOp
  | gen (cp : ℚ) (ts : Int)
  | res (c : Candle) (now : Int)

/-- State transition of one `AgentOp` on the fixed symbol `sym`. -/
def agentStep (lib : IndicatorLib) (sym : String) (s : EngineState) :
    AgentOp → EngineState
  | .gen cp ts => (generateSignal lib s sym cp ts).1
  | .res c now => (resolveOpenTrade s sym c now).st

/-- Run an arbitrary interleaving of `generateSignal`/`resolveOpenTrade`. -/
def agentRun (lib : IndicatorLib) (sym : String) :
    EngineState → List AgentOp → EngineState
  | s, [] => s
  | s, op :: ops => agentRun lib sym (agentStep lib sym s op) ops

/-- How many trades a symbol's `openTrade` slot holds. -/
def openCount : Option Trade → Nat
  | none => 0
  | some _ => 1

/-- An indicator call that yields no usable data: a thrown computation
error, or an output series of insufficient (zero) length. -/
def indBad {α : Type} (r : Except Unit (List α)) : Bool :=
  match r with
  | .error _ => true
  | .ok l => l.isEmpty

/-- Any public mutating engine operation, for the cooldown analysis:
signal generation, trade resolution, and all candle-feeding operations. -/
inductive EngineOp
  | gen (sym : String) (cp : ℚ) (ts : Int)
  | res (sym : String) (c : Candle) (now : Int)
  | push1m (sym : String) (c : Candle)
  | push5m (sym : String) (c : Candle)
  | load1m (sym : String) (cs : List Candle)
  | load5m (sym : String) (cs : List Candle)
  | load1h (sym : String) (cs : List Candle)

/-- State transition of one `EngineOp`. -/
def engineStep (lib : IndicatorLib) (s : EngineState) : EngineOp → EngineState
  | .gen sym cp ts => (generateSignal lib s sym cp ts).1
  | .res sym c now => (resolveOpenTrade s sym c now).st
  | .push1m sym c => push1mCandle s sym c
  | .push5m sym c => push5mCandle s sym c
  | .load1m sym cs => load1mCandles s sym cs
  | .load5m sym cs => load5mCandles s sym cs
  | .load1h sym cs => load1hCandles s sym cs

/-- Run a sequence of engine operations. -/
def engineRun (lib : IndicatorLib) : EngineState → List EngineOp → EngineState
  | s, [] => s
  | s, op :: ops => engineRun lib (engineStep lib s op) ops

/-- True when, along the run of `ops`, the symbol `sym` never has a SELL
emitted for it and is never re-initialized by `load1mCandles` (the two
events that touch `lastSignalTs[sym]`): the "no signal in between" side
condition of the consecutive-emissions property. -/
def quietFor (lib : IndicatorLib) (sym : String) :
    EngineState → List EngineOp → Bool
  | _, [] => true
  | s, op :: ops =>
    (match op with
     | .gen g cp ts => !(g == sym && (generateSignal lib s g cp ts).2.isSell)
     | .load1m g _ => !(g == sym)
     | _ => true) && quietFor lib sym (engineStep lib s op) ops


theorem gen_openTrade_some (lib : IndicatorLib) (s : EngineState) (sym : String)
    (t : Trade) (cp : ℚ) (ts : Int) (h : s.openTrade sym = some t) :
    (generateSignal lib s sym cp ts).1 = s ∧
    (generateSignal lib s sym cp ts).2.isSell = false := by
  simp only [generateSignal, h]
  split
  · split
    · exact ⟨rfl, rfl⟩
    · exact ⟨rfl, rfl⟩
  · exact ⟨rfl, rfl⟩

theorem gen_cases (lib : IndicatorLib) (s : EngineState) (sym : String)
    (cp : ℚ) (ts : Int) :
    ((generateSignal lib s sym cp ts).1 = s ∧
     (generateSignal lib s sym cp ts).2.isSell = false) ∨
    (∃ sig : Setup,
      isScalpSession ts = true ∧
      ¬ ((ts : ℚ) - (((s.lastSignalTs sym).getD 0 : Int) : ℚ) < SCALP_CONFIG.COOLDOWN * 60000) ∧
      s.openTrade sym = none ∧
      getSellSignal lib s sym = some sig ∧
      generateSignal lib s sym cp ts =
        ({ s with openTrade := supd s.openTrade sym (some (mkTrade sym cp ts sig)),
                  lastSignalTs := supd s.lastSignalTs sym (some ts) },
         .sell sig (mkTrade sym cp ts sig) .bearish)) := by
  unfold generateSignal
  split
  · split
    · exact Or.inl ⟨rfl, rfl⟩
    · split
      · exact Or.inl ⟨rfl, rfl⟩
      · split
        · exact Or.inl ⟨rfl, rfl⟩
        · split
          · exact Or.inl ⟨rfl, rfl⟩
          · split
            · exact Or.inl ⟨rfl, rfl⟩
            · rename_i hses hcool hd1 hopen hmacro htrend hd2 sig hsig
              exact Or.inr ⟨sig, hses, hcool, hopen, hsig, by rw [not_not.mp htrend]⟩
  · exact Or.inl ⟨rfl, rfl⟩

theorem gen_sell_inv (lib : IndicatorLib) (s : EngineState) (sym : String)
    (cp : ℚ) (ts : Int) (sig : Setup) (t : Trade) (tr : Trend)
    (h : (generateSignal lib s sym cp ts).2 = .sell sig t tr) :
    isScalpSession ts = true ∧
    ¬ ((ts : ℚ) - (((s.lastSignalTs sym).getD 0 : Int) : ℚ) < SCALP_CONFIG.COOLDOWN * 60000) ∧
    s.openTrade sym = none ∧
    getSellSignal lib s sym = some sig ∧
    t = mkTrade sym cp ts sig ∧
    tr = .bearish ∧
    (generateSignal lib s sym cp ts).1 =
      { s with openTrade := supd s.openTrade sym (some (mkTrade sym cp ts sig)),
               lastSignalTs := supd s.lastSignalTs sym (some ts) } := by
  rcases gen_cases lib s sym cp ts with ⟨_, hns⟩ | ⟨sig2, hses, hcool, hopen, hsig, heq⟩
  · rw [h] at hns
    exact absurd hns (by simp [GenResult.isSell])
  · have h2 := congrArg Prod.snd heq
    simp only at h2
    rw [h] at h2
    injection h2 with e1 e2 e3
    subst e1
    exact ⟨hses, hcool, hopen, hsig, e2, e3, by rw [heq]⟩



theorem gen_not_sell_state (lib : IndicatorLib) (s : EngineState) (sym : String)
    (cp : ℚ) (ts : Int) (h : (generateSignal lib s sym cp ts).2.isSell = false) :
    (generateSignal lib s sym cp ts).1 = s := by
  rcases gen_cases lib s sym cp ts with ⟨h1, _⟩ | ⟨sig, _, _, _, _, heq⟩
  · exact h1
  · rw [heq] at h
    simp [GenResult.isSell] at h

theorem resolve_loss (s : EngineState) (sym : String) (t : Trade) (c : Candle)
    (now : Int) (ho : s.openTrade sym = some t) (hsl : t.sl ≤ c.high) :
    resolveOpenTrade s sym c now =
      { st := { s with openTrade := supd s.openTrade sym none,
                       stats := (_recordResult s.stats sym .loss (-1)).1 },
        outcome := if (_recordResult s.stats sym .loss (-1)).2 then none
                   else some { trade := t, result := .loss, rPnL := -1, closePrice := t.sl },
        crashed := (_recordResult s.stats sym .loss (-1)).2 } := by
  simp only [resolveOpenTrade, ho]
  rw [if_pos hsl]

theorem resolve_win (s : EngineState) (sym : String) (t : Trade) (c : Candle)
    (now : Int) (ho : s.openTrade sym = some t) (hsl : ¬ t.sl ≤ c.high)
    (htp : c.low ≤ t.tp) :
    resolveOpenTrade s sym c now =
      { st := { s with openTrade := supd s.openTrade sym none,
                       stats := (_recordResult s.stats sym .win SCALP_CONFIG.RR).1 },
        outcome := if (_recordResult s.stats sym .win SCALP_CONFIG.RR).2 then none
                   else some { trade := t, result := .win, rPnL := SCALP_CONFIG.RR,
                               closePrice := t.tp },
        crashed := (_recordResult s.stats sym .win SCALP_CONFIG.RR).2 } := by
  simp only [resolveOpenTrade, ho]
  rw [if_neg hsl, if_pos htp]

theorem resolve_expired (s : EngineState) (sym : String) (t : Trade) (c : Candle)
    (now : Int) (ho : s.openTrade sym = some t) (hsl : ¬ t.sl ≤ c.high)
    (htp : ¬ c.low ≤ t.tp)
    (hage : SCALP_CONFIG.MAX_HOLD ≤ ((now - t.openTime : Int) : ℚ) / 60000) :
    resolveOpenTrade s sym c now =
      { st := { s with openTrade := supd s.openTrade sym none,
                       stats := (_recordResult s.stats sym .expired (-(3/20))).1 },
        outcome := if (_recordResult s.stats sym .expired (-(3/20))).2 then none
                   else some { trade := t, result := .expired, rPnL := -(3/20),
                               closePrice := c.close },
        crashed := (_recordResult s.stats sym .expired (-(3/20))).2 } := by
  simp only [resolveOpenTrade, ho]
  rw [if_neg hsl, if_neg htp, if_pos hage]

theorem resolve_still (s : EngineState) (sym : String) (t : Trade) (c : Candle)
    (now : Int) (ho : s.openTrade sym = some t) (hsl : ¬ t.sl ≤ c.high)
    (htp : ¬ c.low ≤ t.tp)
    (hage : ¬ SCALP_CONFIG.MAX_HOLD ≤ ((now - t.openTime : Int) : ℚ) / 60000) :
    resolveOpenTrade s sym c now = { st := s, outcome := none, crashed := false } := by
  simp only [resolveOpenTrade, ho]
  rw [if_neg hsl, if_neg htp, if_neg hage]

theorem resolve_lastTs (s : EngineState) (sym : String) (c : Candle) (now : Int) :
    (resolveOpenTrade s sym c now).st.lastSignalTs = s.lastSignalTs := by
  unfold resolveOpenTrade
  split
  · rfl
  · split
    · rfl
    · split
      · rfl
      · split
        · rfl
        · rfl

theorem resolve_openTrade_frame (s : EngineState) (sym sym2 : String) (c : Candle)
    (now : Int) (hne : sym2 ≠ sym) :
    (resolveOpenTrade s sym c now).st.openTrade sym2 = s.openTrade sym2 := by
  unfold resolveOpenTrade
  split
  · rfl
  · split
    · simp [supd, hne]
    · split
      · simp [supd, hne]
      · split
        · simp [supd, hne]
        · rfl



/-- C2: for every open trade and every resolving candle whose high reaches
the stop and whose low reaches the target in the same bar, `resolveOpenTrade`
returns a Loss (never a Win) with realizedR = −1 and closePrice = stopLoss,
and clears the open trade (the stop check runs first).  The per-symbol stats
entry is assumed present, as `load1mCandles` guarantees. -/
theorem C2_stop_priority_loss (s : EngineState) (sym : String) (t : Trade)
    (c : Candle) (now : Int) (ss : SymStats)
    (hopen : s.openTrade sym = some t) (hss : s.stats.bySymbol sym = some ss)
    (hsl : t.sl ≤ c.high) (htp : c.low ≤ t.tp) :
    (resolveOpenTrade s sym c now).outcome =
      some { trade := t, result := .loss, rPnL := -1, closePrice := t.sl } ∧
    (resolveOpenTrade s sym c now).st.openTrade sym = none ∧
    (resolveOpenTrade s sym c now).crashed = false := by
  have hrec : (_recordResult s.stats sym .loss (-1)).2 = false := by
    simp only [_recordResult, hss]
  rw [resolve_loss s sym t c now hopen hsl]
  simp [hrec, supd]

/-- C2 witness: the concrete open trade (SL 91, TP 88.2) against a candle
with high 95 ≥ 91 and low 80 ≤ 88.2 resolves as a −1R Loss at 91. -/
theorem C2_stop_priority_loss_witness :
    (resolveOpenTrade exOpenState "X" (mkC 95 80 90) exTs).outcome =
      some { trade := exTrade 90 exTs, result := .loss, rPnL := -1, closePrice := 91 } ∧
    (resolveOpenTrade exOpenState "X" (mkC 95 80 90) exTs).st.openTrade "X" = none ∧
    (resolveOpenTrade exOpenState "X" (mkC 95 80 90) exTs).crashed = false :=
  C2_stop_priority_loss exOpenState "X" (exTrade 90 exTs) (mkC 95 80 90) exTs
    { wins := 0, losses := 0, totalR := 0 } (by decide) (by decide) (by decide) (by decide)

/-- C4 counterexample: `load1mCandles` is an engine operation that removes an
open trade (it resets the symbol's open-trade slot to null), contradicting
the claim that only `resolveOpenTrade` destroys an open Trade. -/
theorem C4_cex_load1m_clears :
    exOpenState.openTrade "X" = some (exTrade 90 exTs) ∧
    (load1mCandles exOpenState "X" exC1m).openTrade "X" = none := by decide

/-- C4 (amended): an open Trade survives `push1mCandle`, `push5mCandle`,
`load5mCandles`, `load1hCandles` and `generateSignal` untouched; it is
cleared by `resolveOpenTrade` exactly when the candle touches the stop or
target or the wall-clock max hold has elapsed — and additionally by
`load1mCandles` for its symbol, which re-initializes the slot to null. -/
theorem C4_lifecycle_frame (lib : IndicatorLib) (s : EngineState) (sym : String)
    (t : Trade) (hopen : s.openTrade sym = some t) :
    (∀ sym2 c, (push1mCandle s sym2 c).openTrade sym = some t) ∧
    (∀ sym2 c, (push5mCandle s sym2 c).openTrade sym = some t) ∧
    (∀ sym2 cs, (load5mCandles s sym2 cs).openTrade sym = some t) ∧
    (∀ sym2 cs, (load1hCandles s sym2 cs).openTrade sym = some t) ∧
    (∀ cp ts, (generateSignal lib s sym cp ts).1.openTrade sym = some t) ∧
    (∀ cs, (load1mCandles s sym cs).openTrade sym = none) ∧
    (∀ c now, ((resolveOpenTrade s sym c now).st.openTrade sym = none ↔
       (t.sl ≤ c.high ∨ c.low ≤ t.tp ∨
        SCALP_CONFIG.MAX_HOLD ≤ ((now - t.openTime : Int) : ℚ) / 60000))) := by
  refine ⟨fun sym2 c => hopen, fun sym2 c => hopen, fun sym2 cs => hopen,
    fun sym2 cs => hopen, ?_, fun cs => by simp [load1mCandles, supd], ?_⟩
  · intro cp ts
    rw [(gen_openTrade_some lib s sym t cp ts hopen).1]
    exact hopen
  · intro c now
    constructor
    · intro h
      by_contra hcon
      rw [not_or, not_or] at hcon
      obtain ⟨h1, h2, h3⟩ := hcon
      rw [resolve_still s sym t c now hopen h1 h2 h3] at h
      simp [hopen] at h
    · intro h
      rcases h with h1 | h2 | h3
      · rw [resolve_loss s sym t c now hopen h1]
        simp [supd]
      · by_cases h1 : t.sl ≤ c.high
        · rw [resolve_loss s sym t c now hopen h1]
          simp [supd]
        · rw [resolve_win s sym t c now hopen h1 h2]
          simp [supd]
      · by_cases h1 : t.sl ≤ c.high
        · rw [resolve_loss s sym t c now hopen h1]
          simp [supd]
        · by_cases h2 : c.low ≤ t.tp
          · rw [resolve_win s sym t c now hopen h1 h2]
            simp [supd]
          · rw [resolve_expired s sym t c now hopen h1 h2 h3]
            simp [supd]

/-- C4 witness: the frame theorem applied at the concrete open-trade state:
a pushed 1-minute candle (even for another symbol) leaves the trade open,
and a `load1mCandles` for its symbol clears it. -/
theorem C4_lifecycle_frame_witness :
    (push1mCandle exOpenState "Y" (mkC 90 90 90)).openTrade "X" = some (exTrade 90 exTs) ∧
    (load1mCandles exOpenState "X" exC1m).openTrade "X" = none :=
  ⟨(C4_lifecycle_frame exLib exOpenState "X" (exTrade 90 exTs) (by decide)).1 "Y" (mkC 90 90 90),
   (C4_lifecycle_frame exLib exOpenState "X" (exTrade 90 exTs) (by decide)).2.2.2.2.2.1 exC1m⟩

/-- C8 counterexample: an EXPIRED outcome carries realizedR = −0.15 and
increments the global counters, but the per-symbol stats entry is left
completely untouched (it has no expired counter and its running total does
not receive the −0.15), contradicting the claim that every outcome updates
both the global and the per-symbol counters and totals. -/
theorem C8_cex_expired_per_symbol :
    (resolveOpenTrade exOpenState "X" (mkC (181/2) 89 90) (exTs + 1200000)).outcome =
      some { trade := exTrade 90 exTs, result := .expired, rPnL := -(3/20), closePrice := 90 } ∧
    (resolveOpenTrade exOpenState "X" (mkC (181/2) 89 90) (exTs + 1200000)).st.stats.expired = 1 ∧
    (resolveOpenTrade exOpenState "X" (mkC (181/2) 89 90) (exTs + 1200000)).st.stats.totalR = -(3/20) ∧
    (resolveOpenTrade exOpenState "X" (mkC (181/2) 89 90) (exTs + 1200000)).st.stats.bySymbol "X" =
      some { wins := 0, losses := 0, totalR := 0 } ∧
    ((0 : ℚ) ≠ 0 + -(3/20)) := by decide

/-- C8 (amended): WIN and LOSS outcomes increment the matching counter and
add realizedR to the running total both globally and for the trade's symbol;
EXPIRED outcomes update only the global expired counter and global total —
the per-symbol entry (which tracks only wins, losses and totalR) is
unchanged. -/
theorem C8_stats_update (s : EngineState) (sym : String) (t : Trade) (c : Candle)
    (now : Int) (ss : SymStats)
    (hopen : s.openTrade sym = some t) (hss : s.stats.bySymbol sym = some ss) :
    (t.sl ≤ c.high →
       (resolveOpenTrade s sym c now).st.stats.wins = s.stats.wins ∧
       (resolveOpenTrade s sym c now).st.stats.losses = s.stats.losses + 1 ∧
       (resolveOpenTrade s sym c now).st.stats.expired = s.stats.expired ∧
       (resolveOpenTrade s sym c now).st.stats.totalR = s.stats.totalR + (-1) ∧
       (resolveOpenTrade s sym c now).st.stats.bySymbol sym =
         some { wins := ss.wins, losses := ss.losses + 1, totalR := ss.totalR + (-1) }) ∧
    (¬ t.sl ≤ c.high → c.low ≤ t.tp →
       (resolveOpenTrade s sym c now).st.stats.wins = s.stats.wins + 1 ∧
       (resolveOpenTrade s sym c now).st.stats.losses = s.stats.losses ∧
       (resolveOpenTrade s sym c now).st.stats.expired = s.stats.expired ∧
       (resolveOpenTrade s sym c now).st.stats.totalR = s.stats.totalR + SCALP_CONFIG.RR ∧
       (resolveOpenTrade s sym c now).st.stats.bySymbol sym =
         some { wins := ss.wins + 1, losses := ss.losses, totalR := ss.totalR + SCALP_CONFIG.RR }) ∧
    (¬ t.sl ≤ c.high → ¬ c.low ≤ t.tp →
       SCALP_CONFIG.MAX_HOLD ≤ ((now - t.openTime : Int) : ℚ) / 60000 →
       (resolveOpenTrade s sym c now).st.stats.wins = s.stats.wins ∧
       (resolveOpenTrade s sym c now).st.stats.losses = s.stats.losses ∧
       (resolveOpenTrade s sym c now).st.stats.expired = s.stats.expired + 1 ∧
       (resolveOpenTrade s sym c now).st.stats.totalR = s.stats.totalR + (-(3/20)) ∧
       (resolveOpenTrade s sym c now).st.stats.bySymbol sym = some ss) := by
  refine ⟨?_, ?_, ?_⟩
  · intro hsl
    rw [resolve_loss s sym t c now hopen hsl]
    simp only [_recordResult, hss]
    simp [supd]
  · intro hsl htp
    rw [resolve_win s sym t c now hopen hsl htp]
    simp only [_recordResult, hss]
    simp [supd]
  · intro hsl htp hage
    rw [resolve_expired s sym t c now hopen hsl htp hage]
    simp only [_recordResult, hss]
    simp [hss]

/-- C8 witness: the concrete open trade stopped out at a candle with high 95
increments losses globally and for "X" and subtracts 1R from both totals. -/
theorem C8_stats_update_witness :
    (resolveOpenTrade exOpenState "X" (mkC 95 89 90) exTs).st.stats.losses = 1 ∧
    (resolveOpenTrade exOpenState "X" (mkC 95 89 90) exTs).st.stats.totalR = 0 + (-1) ∧
    (resolveOpenTrade exOpenState "X" (mkC 95 89 90) exTs).st.stats.bySymbol "X" =
      some { wins := 0, losses := 0 + 1, totalR := 0 + (-1) } := by
  have h := (C8_stats_update exOpenState "X" (exTrade 90 exTs) (mkC 95 89 90) exTs
    { wins := 0, losses := 0, totalR := 0 } (by decide) (by decide)).1 (by decide)
  exact ⟨h.2.1, h.2.2.2.1, h.2.2.2.2⟩



/-- C6: `generateSignal` returns Hold (an outside-session Hold) at every
timestamp whose UTC day is not Monday–Friday or whose UTC hour is outside
[12,13); conversely, whenever the session gate admits a timestamp, that
window condition holds — the Monday and Friday edge rules only narrow it. -/
theorem C6_session_window (lib : IndicatorLib) (s : EngineState) (sym : String)
    (cp : ℚ) (ts : Int) :
    (¬ (1 ≤ utcDay ts ∧ utcDay ts ≤ 5 ∧ 12 ≤ utcHours ts ∧ utcHours ts < 13) →
      (generateSignal lib s sym cp ts).2 = .hold (.outsideSession (utcHours ts))) ∧
    (isScalpSession ts = true →
      1 ≤ utcDay ts ∧ utcDay ts ≤ 5 ∧ 12 ≤ utcHours ts ∧ utcHours ts < 13) := by
  have hwin : isScalpSession ts = true →
      1 ≤ utcDay ts ∧ utcDay ts ≤ 5 ∧ 12 ≤ utcHours ts ∧ utcHours ts < 13 := by
    intro h
    have hd0 : 0 ≤ utcDay ts := Int.emod_nonneg _ (by norm_num)
    have hd7 : utcDay ts < 7 := Int.emod_lt_of_pos _ (by norm_num)
    unfold isScalpSession at h
    split at h
    · cases h
    · split at h
      · cases h
      · split at h
        · cases h
        · rename_i hne hmon hfri
          rw [not_or] at hne
          have h2 := of_decide_eq_true h
          have e1 : SCALP_CONFIG.HOUR_START = 12 := rfl
          have e2 : SCALP_CONFIG.HOUR_END = 13 := rfl
          rw [e1, e2] at h2
          exact ⟨by omega, by omega, h2.1, h2.2⟩
  refine ⟨?_, hwin⟩
  intro hno
  have hs : isScalpSession ts = false := by
    by_contra hx
    rw [Bool.not_eq_false] at hx
    exact hno (hwin hx)
  simp [generateSignal, hs]

/-- C6 witness: Saturday Jan 3 1970 12:00 UTC (day 6) is outside the window
and yields the outside-session Hold even on a state that would otherwise
emit. -/
theorem C6_session_window_witness :
    (generateSignal exLib exState "X" 90 216000000).2 = .hold (.outsideSession 12) :=
  (C6_session_window exLib exState "X" 90 216000000).1 (by decide)

/-- C9: the trend filters are fail-safe — too little history (fewer than 55
bars), an indicator output of insufficient length (empty), or a thrown
indicator computation error (`.error`, the caught case) all yield NEUTRAL
from `get1hMacro` and `get5mTrend`; both functions are total, so no
exception crosses the engine boundary. -/
theorem C9_trend_fail_safe (lib : IndicatorLib) (s : EngineState) (sym : String) :
    ((s.candles1h sym).length < 55 ∨
       indBad (lib.ema ((s.candles1h sym).map (·.close)) 21) = true ∨
       indBad (lib.ema ((s.candles1h sym).map (·.close)) 50) = true ∨
       indBad (lib.adx ((s.candles1h sym).map (·.high)) ((s.candles1h sym).map (·.low))
         ((s.candles1h sym).map (·.close)) 14) = true →
      get1hMacro lib s sym = .neutral) ∧
    ((s.candles5m sym).length < 55 ∨
       indBad (lib.ema ((s.candles5m sym).map (·.close)) 9) = true ∨
       indBad (lib.ema ((s.candles5m sym).map (·.close)) 21) = true ∨
       indBad (lib.ema ((s.candles5m sym).map (·.close)) 50) = true ∨
       indBad (lib.adx ((s.candles5m sym).map (·.high)) ((s.candles5m sym).map (·.low))
         ((s.candles5m sym).map (·.close)) 14) = true →
      get5mTrend lib s sym = .neutral) := by
  constructor
  · intro h
    unfold get1hMacro
    by_cases hlen : (s.candles1h sym).length < 55
    · rw [if_pos hlen]
    · rw [if_neg hlen]
      replace h := h.resolve_left hlen
      rcases hr1 : lib.ema ((s.candles1h sym).map (·.close)) 21 with u1 | l21 <;>
        rcases hr2 : lib.ema ((s.candles1h sym).map (·.close)) 50 with u2 | l50 <;>
        rcases hr3 : lib.adx ((s.candles1h sym).map (·.high)) ((s.candles1h sym).map (·.low))
          ((s.candles1h sym).map (·.close)) 14 with u3 | ladx <;>
        simp_all [indBad, List.isEmpty_iff]
  · intro h
    unfold get5mTrend
    by_cases hlen : (s.candles5m sym).length < 55
    · rw [if_pos hlen]
    · rw [if_neg hlen]
      replace h := h.resolve_left hlen
      rcases hr1 : lib.ema ((s.candles5m sym).map (·.close)) 9 with u1 | l9 <;>
        rcases hr2 : lib.ema ((s.candles5m sym).map (·.close)) 21 with u2 | l21 <;>
        rcases hr3 : lib.ema ((s.candles5m sym).map (·.close)) 50 with u3 | l50 <;>
        rcases hr4 : lib.adx ((s.candles5m sym).map (·.high)) ((s.candles5m sym).map (·.low))
          ((s.candles5m sym).map (·.close)) 14 with u4 | ladx <;>
        simp_all [indBad, List.isEmpty_iff]

/-- C9 witness: on a symbol with no loaded history both filters are
NEUTRAL. -/
theorem C9_trend_fail_safe_witness :
    get1hMacro exLib exState "Y" = .neutral ∧ get5mTrend exLib exState "Y" = .neutral :=
  ⟨(C9_trend_fail_safe exLib exState "Y").1 (Or.inl (by decide)),
   (C9_trend_fail_safe exLib exState "Y").2 (Or.inl (by decide))⟩

/-- C10: `getStats` reports winRate 0 when no trades have closed, the
explicit infinite sentinel for profitFactor when there are no losses (never
an error), and (wins × RR)/losses otherwise. -/
theorem C10_stats_report (s : EngineState) :
    (s.stats.wins + s.stats.losses = 0 → (getStats s).winRate = 0) ∧
    (s.stats.losses = 0 → (getStats s).profitFactor = .infinite) ∧
    (0 < s.stats.losses → (getStats s).profitFactor =
      .val ((s.stats.wins : ℚ) * SCALP_CONFIG.RR / (s.stats.losses : ℚ))) := by
  refine ⟨?_, ?_, ?_⟩
  · intro h
    simp [getStats, h]
  · intro h
    simp [getStats, h]
  · intro h
    simp [getStats, h]

/-- C10 witness: fresh stats give winRate 0 and the infinite sentinel; a
2-win/3-loss book gives profit factor 2 × 1.8 / 3 = 1.2. -/
theorem C10_stats_report_witness :
    (getStats exState).winRate = 0 ∧
    (getStats exState).profitFactor = .infinite ∧
    (getStats exLossyState).profitFactor = .val ((2 : ℚ) * (9/5) / 3) :=
  ⟨(C10_stats_report exState).1 (by decide),
   (C10_stats_report exState).2.1 (by decide),
   (C10_stats_report exLossyState).2.2 (by decide)⟩



set_option maxHeartbeats 4000000 in
theorem sellSetupFrom_emit (c1 : List Candle) (ema8 ema21 rsi atr : List ℚ)
    (stoch : List StochEntry) (macd : List MacdEntry) (sig : Setup)
    (h : sellSetupFrom c1 ema8 ema21 rsi atr stoch macd = some sig) :
    3/10 ≤ sig.atr ∧
    sig.sl = sig.price + sig.atr * SCALP_CONFIG.ATR_MUL ∧
    sig.risk = qabs (sig.price - sig.sl) ∧
    0 < sig.risk ∧
    sig.tp = sig.price - sig.risk * SCALP_CONFIG.RR ∧
    qabs (sig.pullbackHigh - sig.ema21) ≤ sig.atr * SCALP_CONFIG.MAX_PB_ATR ∧
    sig.pullbackHigh ≤ sig.ema21 + sig.atr * 1 ∧
    listMax (((c1.drop (c1.length - 8)).dropLast).map (·.high)) = some sig.pullbackHigh := by
  unfold sellSetupFrom at h
  by_cases h0 : ema21.length = 0 ∨ rsi.length = 0 ∨ atr.length = 0
  · rw [if_pos h0] at h
    exact Option.noConfusion h
  rw [if_neg h0] at h
  split at h
  rotate_left
  · exact Option.noConfusion h
  rename_i o1 o2 o3 o4 o5 o6 price prevPrice e21 rsiVal atrVal pullbackHigh
    hq1 hq2 hq3 hq4 hq5 hq6
  by_cases h1 : atrVal = 0 ∨ atrVal < 3/10
  · rw [if_pos h1] at h
    exact Option.noConfusion h
  rw [if_neg h1] at h
  by_cases h2 : atrVal * SCALP_CONFIG.MAX_PB_ATR < qabs (pullbackHigh - e21)
  · rw [if_pos h2] at h
    exact Option.noConfusion h
  rw [if_neg h2] at h
  by_cases h3 : e21 + atrVal * 1 < pullbackHigh
  · rw [if_pos h3] at h
    exact Option.noConfusion h
  rw [if_neg h3] at h
  by_cases h4 : jge (some price) (jidx ema8 ((ema8.length : Int) - 1)) = true
  · rw [if_pos h4] at h
    exact Option.noConfusion h
  rw [if_neg h4] at h
  by_cases h5 : prevPrice ≤ price
  · rw [if_pos h5] at h
    exact Option.noConfusion h
  rw [if_neg h5] at h
  by_cases h6 : rsiVal < 35
  · rw [if_pos h6] at h
    exact Option.noConfusion h
  rw [if_neg h6] at h
  by_cases h7 : jge (some rsiVal) (jidx rsi ((rsi.length : Int) - 2)) = true
  · rw [if_pos h7] at h
    exact Option.noConfusion h
  rw [if_neg h7] at h
  by_cases h8 : jge (some e21) (jidx ema21 ((ema21.length : Int) - 2)) = true
  · rw [if_pos h8] at h
    exact Option.noConfusion h
  rw [if_neg h8] at h
  by_cases h9 : jge (jidx ema8 ((ema8.length : Int) - 1)) (jidx ema8 ((ema8.length : Int) - 2)) = true
  · rw [if_pos h9] at h
    exact Option.noConfusion h
  rw [if_neg h9] at h
  split at h
  rotate_left
  · exact Option.noConfusion h
  rename_i os1 os2 sc sp hqs1 hqs2
  by_cases h10 : jlt sc.k (some 25) = true
  · rw [if_pos h10] at h
    exact Option.noConfusion h
  rw [if_neg h10] at h
  by_cases h11 : jge sc.k sc.d = true ∧ jge sp.k sp.d = true
  · rw [if_pos h11] at h
    exact Option.noConfusion h
  rw [if_neg h11] at h
  split at h
  · exact Option.noConfusion h
  rename_i om mc hqm
  by_cases h12 : jgt mc.histogram (some 0) = true ∧
      ((jidx macd ((macd.length : Int) - 2)).isNone = true ∨
       jge mc.histogram (jhist (jidx macd ((macd.length : Int) - 2))) = true)
  · rw [if_pos h12] at h
    exact Option.noConfusion h
  rw [if_neg h12] at h
  by_cases h13 : scoreConfidence (qabs (pullbackHigh - e21)) atrVal rsiVal
      (jidx rsi ((rsi.length : Int) - 2)) sc sp mc (jidx macd ((macd.length : Int) - 2))
      e21 (jidx ema21 ((ema21.length : Int) - 2))
      (jidx ema8 ((ema8.length : Int) - 1)) (jidx ema8 ((ema8.length : Int) - 2))
      < SCALP_CONFIG.MIN_CONF
  · rw [if_pos h13] at h
    exact Option.noConfusion h
  rw [if_neg h13] at h
  by_cases h14 : qabs (price - (price + atrVal * SCALP_CONFIG.ATR_MUL)) ≤ 0 ∨
      atrVal * 3 < qabs (price - (price + atrVal * SCALP_CONFIG.ATR_MUL))
  · rw [if_pos h14] at h
    exact Option.noConfusion h
  rw [if_neg h14] at h
  rw [Option.some.injEq] at h
  subst h
  rw [not_or] at h1 h14
  refine ⟨le_of_not_lt h1.2, rfl, rfl, lt_of_not_le h14.1, rfl, not_lt.mp h2, not_lt.mp h3, hq6⟩


set_option maxHeartbeats 4000000 in
theorem getSellSignal_emit (lib : IndicatorLib) (s : EngineState) (sym : String)
    (sig : Setup) (h : getSellSignal lib s sym = some sig) :
    3/10 ≤ sig.atr ∧
    sig.sl = sig.price + sig.atr * SCALP_CONFIG.ATR_MUL ∧
    sig.risk = qabs (sig.price - sig.sl) ∧
    0 < sig.risk ∧
    sig.tp = sig.price - sig.risk * SCALP_CONFIG.RR ∧
    qabs (sig.pullbackHigh - sig.ema21) ≤ sig.atr * SCALP_CONFIG.MAX_PB_ATR ∧
    sig.pullbackHigh ≤ sig.ema21 + sig.atr * 1 ∧
    listMax ((((s.candles1m sym).drop ((s.candles1m sym).length - 8)).dropLast).map (·.high))
      = some sig.pullbackHigh := by
  unfold getSellSignal at h
  by_cases h30 : (s.candles1m sym).length < 30
  · rw [if_pos h30] at h
    exact Option.noConfusion h
  rw [if_neg h30] at h
  split at h
  rotate_left
  · exact Option.noConfusion h
  exact sellSetupFrom_emit _ _ _ _ _ _ _ _ h



/-- C1: under arbitrary interleavings of `generateSignal` and
`resolveOpenTrade` from a state with no open trade for the symbol, the
symbol's openTrade slot holds at most one Trade, and `generateSignal`
never constructs a new Trade while one is open — it returns a Hold and
leaves the open trade exactly as it was. -/
theorem C1_single_open_trade (lib : IndicatorLib) (sym : String) (s0 : EngineState)
    (ops : List AgentOp) (h0 : s0.openTrade sym = none) :
    openCount ((agentRun lib sym s0 ops).openTrade sym) ≤ 1 ∧
    (∀ t cp ts, (agentRun lib sym s0 ops).openTrade sym = some t →
      (generateSignal lib (agentRun lib sym s0 ops) sym cp ts).2.isSell = false ∧
      (generateSignal lib (agentRun lib sym s0 ops) sym cp ts).1.openTrade sym = some t) := by
  refine ⟨?_, ?_⟩
  · cases (agentRun lib sym s0 ops).openTrade sym <;> simp [openCount]
  · intro t cp ts hsome
    obtain ⟨hst, hns⟩ := gen_openTrade_some lib (agentRun lib sym s0 ops) sym t cp ts hsome
    exact ⟨hns, by rw [hst]; exact hsome⟩

/-- C1 witness: after one interleaving step that opens the concrete trade,
a further `generateSignal` call emits no SELL and leaves the trade in
place. -/
theorem C1_single_open_trade_witness :
    (generateSignal exLib (agentRun exLib "X" exState [AgentOp.gen 90 exTs]) "X" 90
      (exTs + 60000)).2.isSell = false ∧
    (generateSignal exLib (agentRun exLib "X" exState [AgentOp.gen 90 exTs]) "X" 90
      (exTs + 60000)).1.openTrade "X" = some (exTrade 90 exTs) :=
  (C1_single_open_trade exLib "X" exState [AgentOp.gen 90 exTs] (by decide)).2
    (exTrade 90 exTs) 90 (exTs + 60000) (by decide)

/-- C3 counterexample: the Trade's entryPrice is the caller-supplied
currentPrice while SL/TP are computed from the last 1-minute close, so a
currentPrice of 200 against a close of 90 yields a Trade with
stopLoss = 91 < entryPrice = 200, violating stopLoss > entryPrice, and with
riskDistance 1 ≠ stopLoss − entryPrice = −109. -/
theorem C3_cex_entry_price :
    (generateSignal exLib exState "X" 200 exTs).2 =
      .sell exSetup (exTrade 200 exTs) .bearish ∧
    ¬ ((exTrade 200 exTs).entryPrice < (exTrade 200 exTs).sl) ∧
    ¬ ((exTrade 200 exTs).risk = (exTrade 200 exTs).sl - (exTrade 200 exTs).entryPrice) := by
  decide

/-- C3 (amended): every Trade constructed by `generateSignal` has
stopLoss = p + ATR×1.0, riskDistance = ATR×1.0 = stopLoss − p > 0 and
takeProfit = p − riskDistance×1.8, where p is the last 1-minute close
recorded in the setup, so stopLoss > p > takeProfit; the Trade's entryPrice
is the caller-supplied currentPrice, so the claimed invariant
stopLoss > entryPrice > takeProfit (with riskDistance = stopLoss −
entryPrice) holds whenever currentPrice equals that last close. -/
theorem C3_trade_geometry (lib : IndicatorLib) (s : EngineState) (sym : String)
    (cp : ℚ) (ts : Int) (sig : Setup) (t : Trade) (tr : Trend)
    (h : (generateSignal lib s sym cp ts).2 = .sell sig t tr) :
    t.entryPrice = cp ∧
    t.atr = sig.atr ∧
    t.sl = sig.price + t.atr * SCALP_CONFIG.ATR_MUL ∧
    t.risk = t.atr * SCALP_CONFIG.ATR_MUL ∧
    0 < t.risk ∧
    t.risk = t.sl - sig.price ∧
    t.tp = sig.price - t.risk * SCALP_CONFIG.RR ∧
    sig.price < t.sl ∧
    t.tp < sig.price ∧
    (cp = sig.price →
      t.tp < t.entryPrice ∧ t.entryPrice < t.sl ∧ t.risk = t.sl - t.entryPrice) := by
  obtain ⟨hses, hcool, hopen, hsig, ht, htrend, hst⟩ := gen_sell_inv lib s sym cp ts sig t tr h
  obtain ⟨hatr, hsl, hrisk, hriskpos, htp, _, _, _⟩ := getSellSignal_emit lib s sym sig hsig
  subst ht
  have eA : SCALP_CONFIG.ATR_MUL = 1 := rfl
  have eR : SCALP_CONFIG.RR = 9/5 := rfl
  have hx : sig.price - sig.sl = -(sig.atr * SCALP_CONFIG.ATR_MUL) := by
    rw [hsl]; ring
  have hpos : (0 : ℚ) < sig.atr * SCALP_CONFIG.ATR_MUL := by
    rw [eA, mul_one]
    exact lt_of_lt_of_le (by norm_num) hatr
  have habs : qabs (sig.price - sig.sl) = sig.atr * SCALP_CONFIG.ATR_MUL := by
    rw [hx]
    unfold qabs
    rw [if_pos (by linarith)]
    ring
  have hrisk2 : sig.risk = sig.atr * SCALP_CONFIG.ATR_MUL := by rw [hrisk, habs]
  refine ⟨rfl, rfl, ?_, ?_, ?_, ?_, ?_, ?_, ?_, ?_⟩
  · exact hsl
  · exact hrisk2
  · show (0 : ℚ) < sig.risk
    rw [hrisk2]; exact hpos
  · show sig.risk = sig.sl - sig.price
    rw [hrisk2, hsl]; ring
  · exact htp
  · show sig.price < sig.sl
    rw [hsl]; linarith
  · show sig.tp < sig.price
    rw [htp, hrisk2, eR]
    nlinarith
  · intro hcp
    refine ⟨?_, ?_, ?_⟩
    · show sig.tp < cp
      rw [hcp, htp, hrisk2, eR]
      nlinarith
    · show cp < sig.sl
      rw [hcp, hsl]; linarith
    · show sig.risk = sig.sl - cp
      rw [hcp, hrisk2, hsl]; ring

/-- C3 witness: with currentPrice equal to the last close (90), the
constructed trade satisfies takeProfit < entryPrice < stopLoss with
riskDistance = stopLoss − entryPrice. -/
theorem C3_trade_geometry_witness :
    (exTrade 90 exTs).tp < (exTrade 90 exTs).entryPrice ∧
    (exTrade 90 exTs).entryPrice < (exTrade 90 exTs).sl ∧
    (exTrade 90 exTs).risk = (exTrade 90 exTs).sl - (exTrade 90 exTs).entryPrice :=
  (C3_trade_geometry exLib exState "X" 90 exTs exSetup (exTrade 90 exTs) .bearish
    (by decide)).2.2.2.2.2.2.2.2.2 (by decide)

/-- C7 counterexample: a setup is emitted whose 7-bar pullback high (93.8)
lies strictly below EMA21 (94), outside the claimed interval
[EMA21, EMA21 + 1.0×ATR] — the code bounds only the absolute distance, with
no lower bound at EMA21. -/
theorem C7_cex_pullback_below_ema :
    getSellSignal exLib exState "X" = some exSetup ∧
    exSetup.pullbackHigh < exSetup.ema21 := by decide

/-- C7 (amended): whenever `getSellSignal` emits a setup, the recorded
pullback high is the maximum high of the 7 bars preceding the current one,
it lies within 0.4×ATR of EMA21 in absolute distance (possibly below
EMA21), and does not exceed EMA21 + 1.0×ATR; when this fails no setup is
emitted. -/
theorem C7_pullback_geometry (lib : IndicatorLib) (s : EngineState) (sym : String)
    (sig : Setup) (h : getSellSignal lib s sym = some sig) :
    listMax ((((s.candles1m sym).drop ((s.candles1m sym).length - 8)).dropLast).map (·.high))
      = some sig.pullbackHigh ∧
    qabs (sig.pullbackHigh - sig.ema21) ≤ sig.atr * SCALP_CONFIG.MAX_PB_ATR ∧
    sig.pullbackHigh ≤ sig.ema21 + sig.atr * 1 := by
  obtain ⟨_, _, _, _, _, hd, hov, hlm⟩ := getSellSignal_emit lib s sym sig h
  exact ⟨hlm, hd, hov⟩

/-- C7 witness: on the concrete series the emitted setup's pullback high
93.8 is the lookback maximum, within 0.4×ATR of EMA21 and below
EMA21 + ATR. -/
theorem C7_pullback_geometry_witness :
    listMax ((((exState.candles1m "X").drop ((exState.candles1m "X").length - 8)).dropLast).map (·.high))
      = some exSetup.pullbackHigh ∧
    qabs (exSetup.pullbackHigh - exSetup.ema21) ≤ exSetup.atr * SCALP_CONFIG.MAX_PB_ATR ∧
    exSetup.pullbackHigh ≤ exSetup.ema21 + exSetup.atr * 1 :=
  C7_pullback_geometry exLib exState "X" exSetup (by decide)



theorem gen_isSell_inv (lib : IndicatorLib) (s : EngineState) (sym : String)
    (cp : ℚ) (ts : Int) (h : (generateSignal lib s sym cp ts).2.isSell = true) :
    isScalpSession ts = true ∧
    ¬ ((ts : ℚ) - (((s.lastSignalTs sym).getD 0 : Int) : ℚ) < SCALP_CONFIG.COOLDOWN * 60000) ∧
    (generateSignal lib s sym cp ts).1.lastSignalTs sym = some ts := by
  rcases gen_cases lib s sym cp ts with ⟨_, hns⟩ | ⟨sig, hses, hcool, hopen, hsig, heq⟩
  · rw [hns] at h
    cases h
  · refine ⟨hses, hcool, ?_⟩
    have h1 := congrArg Prod.fst heq
    simp only at h1
    rw [h1]
    simp [supd]

theorem quiet_lastTs (lib : IndicatorLib) (sym : String) :
    ∀ (ops : List EngineOp) (s : EngineState), quietFor lib sym s ops = true →
    (engineRun lib s ops).lastSignalTs sym = s.lastSignalTs sym := by
  intro ops
  induction ops with
  | nil =>
    intro s _
    rfl
  | cons op ops ih =>
    intro s hq
    have hrun : engineRun lib s (op :: ops) = engineRun lib (engineStep lib s op) ops := rfl
    rw [hrun]
    cases op with
    | gen g cp ts =>
      simp only [quietFor, Bool.and_eq_true] at hq
      obtain ⟨h1, h2⟩ := hq
      rw [ih _ h2]
      by_cases hg : g = sym
      · subst hg
        simp only [beq_self_eq_true, Bool.true_and, Bool.not_eq_true'] at h1
        show (generateSignal lib s g cp ts).1.lastSignalTs g = s.lastSignalTs g
        rw [gen_not_sell_state lib s g cp ts h1]
      · rcases gen_cases lib s g cp ts with ⟨hst, _⟩ | ⟨sig, _, _, _, _, heq⟩
        · show (generateSignal lib s g cp ts).1.lastSignalTs sym = s.lastSignalTs sym
          rw [hst]
        · have h1' := congrArg Prod.fst heq
          simp only at h1'
          show (generateSignal lib s g cp ts).1.lastSignalTs sym = s.lastSignalTs sym
          rw [h1']
          have hgs : sym ≠ g := fun he => hg he.symm
          simp [supd, hgs]
    | res g c now =>
      simp only [quietFor, Bool.true_and] at hq
      rw [ih _ hq]
      show (resolveOpenTrade s g c now).st.lastSignalTs sym = s.lastSignalTs sym
      rw [resolve_lastTs]
    | push1m g c =>
      simp only [quietFor, Bool.true_and] at hq
      rw [ih _ hq]
      rfl
    | push5m g c =>
      simp only [quietFor, Bool.true_and] at hq
      rw [ih _ hq]
      rfl
    | load1m g cs =>
      simp only [quietFor, Bool.and_eq_true, Bool.not_eq_true'] at hq
      obtain ⟨h1, h2⟩ := hq
      rw [ih _ h2]
      have hgs : sym ≠ g := by
        intro he
        subst he
        simp at h1
      show (load1mCandles s g cs).lastSignalTs sym = s.lastSignalTs sym
      simp [load1mCandles, supd, hgs]
    | load5m g cs =>
      simp only [quietFor, Bool.true_and] at hq
      rw [ih _ hq]
      rfl
    | load1h g cs =>
      simp only [quietFor, Bool.true_and] at hq
      rw [ih _ hq]
      rfl

/-- C5 counterexample: a `load1mCandles` between two `generateSignal` calls
resets the symbol's last-signal timestamp, so two SELL emissions can be only
one minute apart — less than the 5-minute (300000 ms) cooldown. -/
theorem C5_cex_load1m_resets_cooldown :
    (generateSignal exLib exState "X" 90 exTs).2.isSell = true ∧
    (generateSignal exLib
      (load1mCandles (generateSignal exLib exState "X" 90 exTs).1 "X" exC1m)
      "X" 90 (exTs + 60000)).2.isSell = true ∧
    ((exTs + 60000 : Int) - exTs : ℚ) < SCALP_CONFIG.COOLDOWN * 60000 := by decide

/-- C5 (amended): two consecutive SELL emissions for a symbol are at least
the 5-minute cooldown apart, provided no `load1mCandles` for that symbol
(which zeroes the cooldown clock) and no other SELL occurs between them —
over arbitrary interleavings of all other engine operations; and while the
cooldown has not elapsed, a generateSignal call inside the session window
returns the cooldown Hold reporting the remaining wait in minutes. -/
theorem C5_cooldown_spacing (lib : IndicatorLib) :
    (∀ (s0 : EngineState) (sym : String) (cp1 : ℚ) (ts1 : Int) (ops : List EngineOp)
       (cp2 : ℚ) (ts2 : Int),
      (generateSignal lib s0 sym cp1 ts1).2.isSell = true →
      quietFor lib sym (generateSignal lib s0 sym cp1 ts1).1 ops = true →
      (generateSignal lib (engineRun lib (generateSignal lib s0 sym cp1 ts1).1 ops)
        sym cp2 ts2).2.isSell = true →
      SCALP_CONFIG.COOLDOWN * 60000 ≤ ((ts2 : ℚ) - (ts1 : ℚ))) ∧
    (∀ (s : EngineState) (sym : String) (cp : ℚ) (ts last : Int),
      isScalpSession ts = true → s.lastSignalTs sym = some last →
      ((ts : ℚ) - (last : ℚ)) < SCALP_CONFIG.COOLDOWN * 60000 →
      (generateSignal lib s sym cp ts).2 =
        .hold (.cooldownActive (some (jceil
          ((SCALP_CONFIG.COOLDOWN * 60000 - ((ts : ℚ) - (last : ℚ))) / 60000))))) := by
  constructor
  · intro s0 sym cp1 ts1 ops cp2 ts2 h1 hq h2
    have hl1 := (gen_isSell_inv lib s0 sym cp1 ts1 h1).2.2
    have hpres := quiet_lastTs lib sym ops (generateSignal lib s0 sym cp1 ts1).1 hq
    have hc := (gen_isSell_inv lib _ sym cp2 ts2 h2).2.1
    rw [hpres, hl1] at hc
    simpa using not_lt.mp hc
  · intro s sym cp ts last hses hlast hcool
    unfold generateSignal
    rw [if_pos hses, hlast]
    rw [if_pos (by simpa using hcool)]
    simp [cooldownWait, hlast]

/-- C5 witness: a SELL at 12:30, a resolving stop-out in between, and a
second SELL exactly five minutes later satisfy the cooldown spacing; the
applied run discharges every hypothesis concretely. -/
theorem C5_cooldown_spacing_witness :
    SCALP_CONFIG.COOLDOWN * 60000 ≤ ((exTs + 300000 : Int) : ℚ) - (exTs : ℚ) :=
  (C5_cooldown_spacing exLib).1 exState "X" 90 exTs
    [EngineOp.res "X" (mkC 95 80 90) exTs] 90 (exTs + 300000)
    (by decide) (by decide) (by decide)


end Scalp
